import Mathlib

/-!
Verification development for the LocalLoop conversational AI core.

The definitions below are a shallow embedding of the chat route handler
(`src/app/api/chat/route.ts`), the Digital Twin chat handler and its tools
(`docs/technical/ai/streaming.md`), the structured-output offer generator
(`docs/technical/ai/structured-data.md`), and — where the repository only
configures an external SDK — a model of the turn-orchestrator state machine
built from the specification.
-/

set_option autoImplicit false
set_option maxRecDepth 4000

namespace LocalLoop

/-! ## JSON values and helpers

Request bodies and provider outputs are JSON; zod schemas are embedded as
functions over this value type. -/

inductive JVal where
  | jnull
  | jbool (b : Bool)
  | jnum (n : Int)
  | jstr (s : String)
  | jarr (xs : List JVal)
  | jobj (fs : List (String × JVal))

/-- Field lookup on a JSON object (first binding wins, as after JSON.parse). -/
def getField : List (String × JVal) → String → Option JVal
  | [], _ => none
  | (k, v) :: rest, key => if k = key then some v else getField rest key

/-- `pat` is a leading segment of `l` (element-wise equality). -/
def strStarts : List Char → List Char → Bool
  | [], _ => true
  | _ :: _, [] => false
  | a :: as, b :: bs => a = b && strStarts as bs

/-- `pat` occurs contiguously somewhere in `l`; models String.prototype.includes. -/
def listHasSegment (pat : List Char) : List Char → Bool
  | [] => pat.isEmpty
  | c :: cs => strStarts pat (c :: cs) || listHasSegment pat cs

/-- Substring containment on strings; models String.prototype.includes. -/
def strContains (s pat : String) : Bool :=
  listHasSegment pat.toList s.toList

/-- `s` starts with `pat`; models String.prototype.startsWith. -/
def strStartsWith (s pat : String) : Bool :=
  strStarts pat.toList s.toList

def isWhite (c : Char) : Bool :=
  c = ' ' || c = '\t' || c = '\n' || c = '\r'

/-- Whitespace trimming; models String.prototype.trim. -/
def strTrim (s : String) : String :=
  ⟨((s.toList.dropWhile isWhite).reverse.dropWhile isWhite).reverse⟩

def strIsEmpty (s : String) : Bool :=
  s.toList.isEmpty

/-! ## zod request validation (`route.ts` lines 39-53)

`messagePartSchema`: object with a string `type` and an optional string `text`
of at most 10000 characters.  `messageSchema`: optional string `id`, `role`
drawn from the user/assistant/system enum, optional array `parts` of message
parts, optional `content` that is either a string or an array of message
parts.  `chatRequestSchema`: object with a `messages` array of at most 100
messages. -/

def validMessagePart (v : JVal) : Bool :=
  match v with
  | .jobj fs =>
      (match getField fs "type" with
       | some (.jstr _) => true
       | _ => false) &&
      (match getField fs "text" with
       | none => true
       | some (.jstr s) => decide (s.length ≤ 10000)
       | some _ => false)
  | _ => false

def validRole (v : JVal) : Bool :=
  match v with
  | .jstr s => s == "user" || s == "assistant" || s == "system"
  | _ => false

def validMessage (v : JVal) : Bool :=
  match v with
  | .jobj fs =>
      (match getField fs "id" with
       | none => true
       | some (.jstr _) => true
       | some _ => false) &&
      (match getField fs "role" with
       | some r => validRole r
       | none => false) &&
      (match getField fs "parts" with
       | none => true
       | some (.jarr xs) => xs.all validMessagePart
       | some _ => false) &&
      (match getField fs "content" with
       | none => true
       | some (.jstr _) => true
       | some (.jarr xs) => xs.all validMessagePart
       | some _ => false)
  | _ => false

def chatRequestValid (v : JVal) : Bool :=
  match v with
  | .jobj fs =>
      (match getField fs "messages" with
       | some (.jarr ms) => decide (ms.length ≤ 100) && ms.all validMessage
       | _ => false)
  | _ => false

/-! ## The POST handler of `route.ts` (lines 55-136)

The handler runs, in order: session check, JSON body parse, zod validation,
API-key presence check, API-key shape check, and only then the provider call.
`rawBody = none` models `req.json()` throwing.  The trace records which
phases ran and whether the provider was ever called. -/

structure Session where
  userId : String
deriving DecidableEq, Repr

structure Env where
  apiKey : Option String
deriving DecidableEq, Repr

inductive PostOutcome where
  | unauthorized
  | invalidJson
  | invalidRequest
  | missingKey
  | invalidKey
  | streamed
deriving DecidableEq, Repr

def statusOf : PostOutcome → Nat
  | .unauthorized => 401
  | .invalidJson => 400
  | .invalidRequest => 400
  | .missingKey => 500
  | .invalidKey => 500
  | .streamed => 200

/-- The literal 401 body written by the handler. -/
def unauthorizedBody : String := "\x7b\"error\":\"Unauthorized\"\x7d"

def bodyOf : PostOutcome → String
  | .unauthorized => unauthorizedBody
  | .invalidJson => "\x7b\"error\":\"Invalid JSON\"\x7d"
  | .invalidRequest => "\x7b\"error\":\"Invalid request\"\x7d"
  | .missingKey => "\x7b\"error\":\"OpenRouter API key not configured. Set OPENROUTER_API_KEY in .env\"\x7d"
  | .invalidKey => "\x7b\"error\":\"Invalid OPENROUTER_API_KEY.\"\x7d"
  | .streamed => ""

structure PostTrace where
  outcome : PostOutcome
  bodyParseAttempted : Bool
  validationRun : Bool
  providerCalled : Bool
deriving DecidableEq, Repr

def POST (session : Option Session) (rawBody : Option JVal) (env : Env) : PostTrace :=
  match session with
  | none => ⟨.unauthorized, false, false, false⟩
  | some _ =>
    match rawBody with
    | none => ⟨.invalidJson, true, false, false⟩
    | some body =>
      if !chatRequestValid body then ⟨.invalidRequest, true, true, false⟩
      else
        match env.apiKey with
        | none => ⟨.missingKey, true, true, false⟩
        | some k =>
          let key := strTrim k
          if strIsEmpty key then ⟨.missingKey, true, true, false⟩
          else if !strStartsWith key "sk-or-v1-" || strContains key "your-key" then
            ⟨.invalidKey, true, true, false⟩
          else ⟨.streamed, true, true, true⟩

/-! ## `getOpenRouterFriendlyError` (`route.ts` lines 7-36)

The error passed to `onError` is either an object (possibly an Error
instance) with optional `statusCode` and `responseBody` fields and a
`message` string, a plain string, or something else (null, undefined, a
number ...). -/

inductive ErrVal where
  | eobj (isErrorInstance : Bool) (statusCode : Option Int)
         (responseBody : Option String) (message : String)
  | estr (s : String)
  | eother
deriving DecidableEq, Repr

def ErrVal.statusCodeOf : ErrVal → Option Int
  | .eobj _ sc _ _ => sc
  | _ => none

def ErrVal.responseBodyOf : ErrVal → Option String
  | .eobj _ _ rb _ => rb
  | _ => none

/-- The string the function forwards from the error itself, when it does:
the `message` field of an Error instance, or the string error verbatim. -/
def ErrVal.ownMessage : ErrVal → Option String
  | .eobj true _ _ m => some m
  | .estr s => some s
  | _ => none

def authFailedMsg : String :=
  "OpenRouter authentication failed (401). Check your OPENROUTER_API_KEY in .env (it should start with \x27sk-or-v1-\x27), then restart the dev server."

def rateLimitMsg : String :=
  "OpenRouter rate limit hit (429). Please wait a bit and try again."

def unknownAiMsg : String := "Unknown AI error."

def getOpenRouterFriendlyError (e : ErrVal) : String :=
  if e.statusCodeOf == some 401 ||
     (match e.responseBodyOf with
      | some rb => strContains rb "\"User not found\""
      | none => false) then
    authFailedMsg
  else if e.statusCodeOf == some 429 then
    rateLimitMsg
  else
    match e.ownMessage with
    | some m => m
    | none => unknownAiMsg

/-! ## Digital Twin chat handler (`docs/technical/ai/streaming.md` lines 60-190)

The handler selects the business card, its digital twin, its products and
its promotions from the persistence store, then builds the system prompt.
The card select has no existence check: with no matching card, the
destructured `card` is undefined and `card.businessName` in the template
literal throws a TypeError. -/

structure Card where
  id : String
  businessName : String
  industryType : String
  description : String
  address : Option String
deriving DecidableEq, Repr

structure Twin where
  cardId : String
  personalityTraits : Option String
deriving DecidableEq, Repr

structure Product where
  cardId : String
  name : String
  price : Int
  description : String
  category : Option String
deriving DecidableEq, Repr

structure Promotion where
  cardId : String
  promotionType : String
  discountValue : Int
  conditions : Option String
  endDate : Option String
deriving DecidableEq, Repr

structure DB where
  cards : List Card
  twins : List Twin
  products : List Product
  promotions : List Promotion
deriving DecidableEq, Repr

/-- `db.select().from(t).where(eq(t.cardId, id))`. -/
def selectByCard {α : Type} (key : α → String) (rows : List α) (id : String) : List α :=
  rows.filter (fun r => key r = id)

/-- The system prompt template literal, built from the loaded rows. -/
def systemPromptFor (card : Card) (twin : Option Twin)
    (prods : List Product) (offers : List Promotion) : String :=
  "You are the Digital Twin AI for \"" ++ card.businessName ++ "\".\n\n" ++
  "PERSONALITY:\n" ++
  (match twin with
   | some t => (match t.personalityTraits with
                | some p => p
                | none => "Friendly and helpful")
   | none => "Friendly and helpful") ++ "\n\n" ++
  "BUSINESS INFO:\n" ++
  "- Industry: " ++ card.industryType ++ "\n" ++
  "- Description: " ++ card.description ++ "\n" ++
  "- Location: " ++
  (match card.address with
   | some a => a
   | none => "Not specified") ++ "\n\n" ++
  "PRODUCTS/SERVICES:\n" ++
  String.intercalate "\n"
    (prods.map (fun p =>
      "- " ++ p.name ++ ": $" ++ toString p.price ++ " - " ++ p.description)) ++ "\n\n" ++
  "CURRENT OFFERS:\n" ++
  String.intercalate "\n"
    (offers.map (fun o =>
      "- " ++ o.promotionType ++ ": " ++ toString o.discountValue ++ "% off"))

structure ContextBundle where
  card : Card
  twin : Option Twin
  products : List Product
  offers : List Promotion
  systemPrompt : String
deriving DecidableEq, Repr

/-- How the twin-chat handler fails while assembling context.  `typeError f`
models the uncaught JavaScript TypeError thrown when reading field `f` of
an undefined row; `notFound` is the dedicated error the specification
demands but the handler never produces. -/
inductive TwinChatError where
  | typeError (field : String)
  | notFound
deriving DecidableEq, Repr

/-- Context assembly of the twin-chat POST handler: four reads, then the
system prompt.  No existence check on the card row, so a missing card
surfaces as a TypeError on `businessName`, not as NotFound. -/
def assembleTwinContext (db : DB) (cardId : String) :
    Except TwinChatError ContextBundle :=
  let cardRow := (selectByCard Card.id db.cards cardId).head?
  let twinRow := (selectByCard Twin.cardId db.twins cardId).head?
  let prods := selectByCard Product.cardId db.products cardId
  let offers := selectByCard Promotion.cardId db.promotions cardId
  match cardRow with
  | none => .error (.typeError "businessName")
  | some card =>
      .ok ⟨card, twinRow, prods, offers, systemPromptFor card twinRow prods offers⟩

/-! ## Database operation trace of the twin-chat handler (for read-onlyness)

The handler issues exactly four queries, all selects.  `applyOp` gives
write operations real semantics so that read-onlyness of the trace is not
vacuous. -/

inductive DbOp where
  | selectCards (id : String)
  | selectTwins (id : String)
  | selectProducts (id : String)
  | selectPromotions (id : String)
  | insertRow
  | updateRow
  | deleteRows
deriving DecidableEq, Repr

def DbOp.isRead : DbOp → Bool
  | .selectCards _ => true
  | .selectTwins _ => true
  | .selectProducts _ => true
  | .selectPromotions _ => true
  | _ => false

def applyOp (db : DB) : DbOp → DB
  | .selectCards _ => db
  | .selectTwins _ => db
  | .selectProducts _ => db
  | .selectPromotions _ => db
  | .insertRow => { db with cards := db.cards ++ [⟨"new", "", "", "", none⟩] }
  | .updateRow => { db with products := [] }
  | .deleteRows => ⟨[], [], [], []⟩

/-- The ordered operation trace the twin-chat handler issues against the
persistence collaborator. -/
def twinChatDbTrace (cardId : String) : List DbOp :=
  [.selectCards cardId, .selectTwins cardId, .selectProducts cardId,
   .selectPromotions cardId]

def runTrace (db : DB) (ops : List DbOp) : DB :=
  ops.foldl applyOp db

/-! ## Structured output: the offer schema and the generate-offer handler
(`docs/technical/ai/structured-data.md`)

`offerSchema` requires string `title`, string `description`, number
`discount`, optional string `conditions`, string `socialCaption`, array of
strings `seoKeywords`, string `urgencyText`.  The handler validates the
provider output with `offerSchema.safeParse` and returns 500 on mismatch. -/

structure OfferData where
  title : String
  description : String
  discount : Int
  conditions : Option String
  socialCaption : String
  seoKeywords : List String
  urgencyText : String
deriving DecidableEq, Repr

def asStrList : List JVal → Option (List String)
  | [] => some []
  | .jstr s :: rest => (asStrList rest).map (fun l => s :: l)
  | _ => none

/-- `offerSchema.safeParse`: succeeds exactly when every declared field is
present with its declared type (conditions may be absent), and then yields
the fully-typed object. -/
def parseOffer (v : JVal) : Option OfferData :=
  match v with
  | .jobj fs =>
    match getField fs "title" with
    | some (.jstr t) =>
      match getField fs "description" with
      | some (.jstr d) =>
        match getField fs "discount" with
        | some (.jnum n) =>
          match (match getField fs "conditions" with
                 | none => some none
                 | some (.jstr c) => some (some c)
                 | some _ => none) with
          | some condOpt =>
            match getField fs "socialCaption" with
            | some (.jstr sc) =>
              match getField fs "seoKeywords" with
              | some (.jarr ks) =>
                match asStrList ks with
                | some keys =>
                  match getField fs "urgencyText" with
                  | some (.jstr u) => some ⟨t, d, n, condOpt, sc, keys, u⟩
                  | _ => none
                | none => none
              | _ => none
            | _ => none
          | none => none
        | _ => none
      | _ => none
    | _ => none
  | _ => none

/-- Whether the raw provider output conforms to the declared offer schema. -/
def offerSchemaValid (v : JVal) : Bool :=
  (parseOffer v).isSome

inductive GenOfferResult where
  | badRequest
  | schemaFailure
  | genError
  | ok (offer : OfferData)
deriving DecidableEq, Repr

/-- The generate-offer POST handler: 400 when `businessName` is falsy,
500 when `generateObject` throws, 500 when the schema validation of the
provider output fails, and the parsed object only on full conformance. -/
def generateOfferPOST (businessName : Option String)
    (providerResult : Except Unit JVal) : GenOfferResult :=
  match businessName with
  | none => .badRequest
  | some n =>
    if n = "" then .badRequest
    else
      match providerResult with
      | .error _ => .genError
      | .ok raw =>
        match parseOffer raw with
        | some offer => .ok offer
        | none => .schemaFailure

/-! ## Turn orchestrator

Modelled from the spec: the Requesting/Streaming/ToolPending/Completed/Failed
state machine of section 4.3 and the tool registry of section 4.2.  The
repository configures this loop through the external AI SDK
(`streamText`, `stopWhen: stepCountIs(5)`, `toUIMessageStreamResponse`) whose
implementation is not part of the repository, so the loop itself is built
from the specification text; the tool declarations and their input schemas
are taken from the twin-chat handler code. -/

inductive ErrCode where
  | stepLimitExceeded
  | authRejected
  | rateLimited
  | upstreamDisconnect
  | otherError
deriving DecidableEq, Repr

inductive StreamEvent where
  | textDelta (s : String)
  | toolCallStarted (name : String)
  | toolCallResult (name : String) (ok : Bool) (payload : String)
  | turnError (code : ErrCode)
  | turnComplete (finalText : String)
deriving DecidableEq, Repr

def StreamEvent.isTerminal : StreamEvent → Bool
  | .turnError _ => true
  | .turnComplete _ => true
  | _ => false

def StreamEvent.isToolStart : StreamEvent → Bool
  | .toolCallStarted _ => true
  | _ => false

def terminalCount (evs : List StreamEvent) : Nat :=
  (evs.filter StreamEvent.isTerminal).length

def toolStartCount (evs : List StreamEvent) : Nat :=
  (evs.filter StreamEvent.isToolStart).length

/-- A message part: text or an appended tool invocation result. -/
inductive Part where
  | text (s : String)
  | toolResult (toolName : String) (ok : Bool) (payload : String)
deriving DecidableEq, Repr

structure Msg where
  role : String
  parts : List Part
deriving DecidableEq, Repr

/-- A tool declaration: unique name, input-schema check, execution
function producing the serialized tool output. -/
structure ToolDecl where
  name : String
  validInput : JVal → Bool
  run : JVal → String

def findTool (reg : List ToolDecl) (name : String) : Option ToolDecl :=
  reg.find? (fun t => t.name = name)

inductive ToolOutcome where
  | ok (payload : String)
  | invalidInput
  | unknownTool
deriving DecidableEq, Repr

/-- Registry execute of section 4.2: resolve, validate the raw input
against the input schema, then run the handler. -/
def registryExecute (reg : List ToolDecl) (name : String) (input : JVal) :
    ToolOutcome :=
  match findTool reg name with
  | none => .unknownTool
  | some t => if t.validInput input then .ok (t.run input) else .invalidInput

def invalidInputPayload : String := "InvalidToolInput"
def unknownToolPayload : String := "UnknownTool"

/-- One provider response: either final text, or some streamed text followed
by a tool-call request. -/
inductive ProviderResponse where
  | finalText (text : String)
  | toolCall (name : String) (input : JVal) (pretext : String)

/-- A provider is a function from the running history to its next
response. -/
def Provider : Type := List Msg → ProviderResponse

/-- The message part appended for a tool invocation result. -/
def toolResultMsg (name : String) (ok : Bool) (payload : String) : Msg :=
  ⟨"assistant", [.toolResult name ok payload]⟩

/-- The Requesting/ToolPending loop.  `stepsLeft` is the remaining step
budget; exhausting it fails the turn with StepLimitExceeded.  Tool errors
(invalid input, unknown tool) are fed back into the history as tool error
parts and the loop continues. -/
def runLoop (reg : List ToolDecl) (provider : Provider) (history : List Msg)
    (stepsLeft : Nat) (events : List StreamEvent) (acc : String) :
    List StreamEvent :=
  match stepsLeft with
  | 0 => events ++ [.turnError .stepLimitExceeded]
  | n + 1 =>
    match provider history with
    | .finalText t => events ++ [.textDelta t, .turnComplete (acc ++ t)]
    | .toolCall name input pretext =>
      match registryExecute reg name input with
      | .ok payload =>
          runLoop reg provider (history ++ [toolResultMsg name true payload]) n
            (events ++ [.textDelta pretext, .toolCallStarted name,
                        .toolCallResult name true payload])
            (acc ++ pretext)
      | .invalidInput =>
          runLoop reg provider
            (history ++ [toolResultMsg name false invalidInputPayload]) n
            (events ++ [.textDelta pretext, .toolCallStarted name,
                        .toolCallResult name false invalidInputPayload])
            (acc ++ pretext)
      | .unknownTool =>
          runLoop reg provider
            (history ++ [toolResultMsg name false unknownToolPayload]) n
            (events ++ [.textDelta pretext, .toolCallStarted name,
                        .toolCallResult name false unknownToolPayload])
            (acc ++ pretext)

/-- Maximum tool-loop step count; design default 5
(`stopWhen: stepCountIs(5)`). -/
def defaultMaxSteps : Nat := 5

/-- One full conversation turn. -/
def runTurn (reg : List ToolDecl) (provider : Provider) (history : List Msg)
    (maxSteps : Nat) : List StreamEvent :=
  runLoop reg provider history maxSteps [] ""

/-! ### The twin-chat tool registry (input schemas from the handler code)

`getOffers` takes an empty object schema, `getProducts` an optional string
`category`, `bookAppointment` required strings `date`, `time`, `service`,
`name` and an optional string `phone`. -/

def emptyObjectSchema (v : JVal) : Bool :=
  match v with
  | .jobj _ => true
  | _ => false

def optStringField (fs : List (String × JVal)) (key : String) : Bool :=
  match getField fs key with
  | none => true
  | some (.jstr _) => true
  | some _ => false

def reqStringField (fs : List (String × JVal)) (key : String) : Bool :=
  match getField fs key with
  | some (.jstr _) => true
  | _ => false

def getProductsSchema (v : JVal) : Bool :=
  match v with
  | .jobj fs => optStringField fs "category"
  | _ => false

def bookAppointmentSchema (v : JVal) : Bool :=
  match v with
  | .jobj fs =>
      reqStringField fs "date" && reqStringField fs "time" &&
      reqStringField fs "service" && reqStringField fs "name" &&
      optStringField fs "phone"
  | _ => false

/-- Serialization of the getOffers execute result. -/
def offersPayload (offers : List Promotion) : String :=
  String.intercalate ";"
    (offers.map (fun o => o.promotionType ++ ":" ++ toString o.discountValue))

/-- Serialization of the getProducts execute result, after the category
filter. -/
def productsPayload (prods : List Product) (input : JVal) : String :=
  let filtered : List Product :=
    match input with
    | .jobj fs =>
      (match getField fs "category" with
       | some (.jstr cat) =>
           prods.filter (fun p =>
             match p.category with
             | some c => strContains c cat
             | none => false)
       | _ => prods)
    | _ => prods
  String.intercalate ";" (filtered.map (fun p => p.name ++ ":" ++ toString p.price))

def bookTool : ToolDecl :=
  ⟨"bookAppointment", bookAppointmentSchema, fun _ => "Booking request submitted"⟩

def twinTools (prods : List Product) (offers : List Promotion) : List ToolDecl :=
  [⟨"getOffers", emptyObjectSchema, fun _ => offersPayload offers⟩,
   ⟨"getProducts", getProductsSchema, fun input => productsPayload prods input⟩,
   bookTool]

/-! ## Concrete data used to exercise the theorems -/

def sampleCard : Card :=
  ⟨"card-1", "Coastal Bites", "Restaurant", "Seafood cafe", some "1 Beach Rd"⟩

def sampleTwin : Twin := ⟨"card-1", some "Friendly"⟩

def sampleProduct : Product :=
  ⟨"card-1", "Fish and chips", 12, "Classic serve", some "mains"⟩

def samplePromotion : Promotion :=
  ⟨"card-1", "discount", 20, some "weekdays", some "2026-01-01"⟩

def sampleDB : DB := ⟨[sampleCard], [sampleTwin], [sampleProduct], [samplePromotion]⟩

/-- A minimal body accepted by the chat request schema. -/
def goodBody : JVal := .jobj [("messages", .jarr [])]

/-- Shape-correct request material for the validation theorems: a message
part of known shape. -/
structure GoodPart where
  ptype : String
  text : Option String
deriving DecidableEq, Repr

def encPart (p : GoodPart) : JVal :=
  .jobj (("type", .jstr p.ptype) ::
    (match p.text with
     | none => []
     | some t => [("text", .jstr t)]))

/-- Shape-correct request material: a message with a role and parts. -/
structure GoodMsg where
  role : String
  parts : List GoodPart
deriving DecidableEq, Repr

def encMsg (m : GoodMsg) : JVal :=
  .jobj [("role", .jstr m.role), ("parts", .jarr (m.parts.map encPart))]

def encReq (ms : List GoodMsg) : JVal :=
  .jobj [("messages", .jarr (ms.map encMsg))]

/-- A provider output conforming to the offer schema. -/
def offerRawGood : JVal :=
  .jobj [("title", .jstr "Big Splash"),
         ("description", .jstr "Twenty percent off all mains this week."),
         ("discount", .jnum 20),
         ("socialCaption", .jstr "Dive in!"),
         ("seoKeywords", .jarr [.jstr "seafood", .jstr "deal"]),
         ("urgencyText", .jstr "This week only!")]

def offerGood : OfferData :=
  ⟨"Big Splash", "Twenty percent off all mains this week.", 20, none,
   "Dive in!", ["seafood", "deal"], "This week only!"⟩

/-- A provider that requests a tool call once and then answers. -/
def demoProvider : Provider := fun h =>
  if h.length ≤ 1 then
    .toolCall "bookAppointment" (.jobj [("date", .jnum 5)]) ""
  else
    .finalText "Sorry, I need a valid date."

/-! ## Theorems -/

/-- C10: a POST without a valid session returns HTTP 401 with body
`\x7b"error":"Unauthorized"\x7d` before the body is parsed, before
validation runs and before any provider call; with a session but an
unparseable JSON body it returns HTTP 400. -/
theorem chat_post_auth_and_json_guards :
    (∀ (rawBody : Option JVal) (env : Env),
        POST none rawBody env = ⟨.unauthorized, false, false, false⟩ ∧
        statusOf (POST none rawBody env).outcome = 401 ∧
        bodyOf (POST none rawBody env).outcome = unauthorizedBody) ∧
    (∀ (s : Session) (env : Env),
        POST (some s) none env = ⟨.invalidJson, true, false, false⟩ ∧
        statusOf (POST (some s) none env).outcome = 400) := by
  refine ⟨fun rawBody env => ⟨rfl, rfl, rfl⟩, fun s env => ⟨rfl, rfl⟩⟩

/-- C9: the Digital Twin context assembly is read-only: its database trace
consists solely of select operations and replaying the trace leaves any
database state unchanged. -/
theorem twin_context_read_only :
    ∀ (db : DB) (cardId : String),
      (twinChatDbTrace cardId).all DbOp.isRead = true ∧
      runTrace db (twinChatDbTrace cardId) = db := by
  intro db cardId
  exact ⟨rfl, rfl⟩

/-- C4: with no matching business record the twin-chat context assembly does
not fail with NotFound — it crashes with a TypeError on `businessName`
(the undefined card row is dereferenced in the system-prompt template);
with a matching record it returns the full bundle of card, twin, products
and active offers. -/
theorem twin_context_missing_business :
    assembleTwinContext sampleDB "missing-id" =
      .error (.typeError "businessName") ∧
    assembleTwinContext sampleDB "missing-id" ≠ .error .notFound ∧
    assembleTwinContext sampleDB "card-1" =
      .ok ⟨sampleCard, some sampleTwin, [sampleProduct], [samplePromotion],
           systemPromptFor sampleCard (some sampleTwin) [sampleProduct]
             [samplePromotion]⟩ := by
  refine ⟨rfl, ?_, rfl⟩
  intro h
  exact TwinChatError.noConfusion (Except.error.inj h)

/-- C6 counterexample: the chat handler does perform provider-credential
configuration checks per request — with a valid session and a valid body
but a missing or malformed OPENROUTER_API_KEY, the individual request
fails with HTTP 500 at request time. -/
theorem config_checked_at_request_time :
    POST (some ⟨"user-1"⟩) (some goodBody) ⟨none⟩ =
      ⟨.missingKey, true, true, false⟩ ∧
    statusOf (POST (some ⟨"user-1"⟩) (some goodBody) ⟨none⟩).outcome = 500 ∧
    POST (some ⟨"user-1"⟩) (some goodBody) ⟨some "your-key-here"⟩ =
      ⟨.invalidKey, true, true, false⟩ := by
  refine ⟨rfl, rfl, ?_⟩
  decide

/-- C6 (amended): provider-credential configuration problems are detected
per request in the chat handler, not at startup: with any valid session and
valid body, a missing, empty, or malformed OPENROUTER_API_KEY fails that
individual request with HTTP 500 and the provider is never called. -/
theorem config_errors_fail_request_before_provider :
    ∀ (s : Session) (body : JVal) (env : Env),
      chatRequestValid body = true →
      (env.apiKey = none ∨
       ∃ k, env.apiKey = some k ∧
         (strIsEmpty (strTrim k) = true ∨
          strStartsWith (strTrim k) "sk-or-v1-" = false ∨
          strContains (strTrim k) "your-key" = true)) →
      statusOf (POST (some s) (some body) env).outcome = 500 ∧
      (POST (some s) (some body) env).providerCalled = false := by
  intro s body env hvalid henv
  rcases henv with h | ⟨k, hk, hcase⟩
  · simp [POST, statusOf, hvalid, h]
  · rcases hcase with h1 | h1 | h1
    · simp [POST, statusOf, hvalid, hk, h1]
    · cases h2 : strIsEmpty (strTrim k)
      · simp [POST, statusOf, hvalid, hk, h1, h2]
      · simp [POST, statusOf, hvalid, hk, h2]
    · cases h2 : strIsEmpty (strTrim k)
      · cases h3 : strStartsWith (strTrim k) "sk-or-v1-" <;>
          simp [POST, statusOf, hvalid, hk, h1, h2, h3]
      · simp [POST, statusOf, hvalid, hk, h2]

/-- Witness for the amended C6 theorem at a concrete request with a missing
key. -/
theorem config_errors_fail_request_witness :
    statusOf (POST (some ⟨"u"⟩) (some goodBody) ⟨none⟩).outcome = 500 ∧
    (POST (some ⟨"u"⟩) (some goodBody) ⟨none⟩).providerCalled = false :=
  config_errors_fail_request_before_provider ⟨"u"⟩ goodBody ⟨none⟩ (by decide)
    (Or.inl rfl)

/-- C5: a provider credential rejection (statusCode 401) is surfaced as the
curated authentication message, and the raw upstream response body is never
forwarded: the handler only ever returns one of the curated messages or the
error value's own message string. -/
theorem provider_errors_curated :
    (∀ e : ErrVal, e.statusCodeOf = some 401 →
        getOpenRouterFriendlyError e = authFailedMsg) ∧
    (∀ (e : ErrVal) (b : String),
        e.responseBodyOf = some b →
        e.ownMessage ≠ some b →
        b ≠ authFailedMsg → b ≠ rateLimitMsg → b ≠ unknownAiMsg →
        getOpenRouterFriendlyError e ≠ b) := by
  constructor
  · intro e h
    cases e with
    | eobj iE sc rb m =>
        simp only [ErrVal.statusCodeOf] at h
        simp [getOpenRouterFriendlyError, ErrVal.statusCodeOf, h]
    | estr s => simp [ErrVal.statusCodeOf] at h
    | eother => simp [ErrVal.statusCodeOf] at h
  · intro e b hrb hmsg hba hbr hbu
    unfold getOpenRouterFriendlyError
    rw [hrb]
    split
    · exact fun hh => hba hh.symm
    · split
      · exact fun hh => hbr hh.symm
      · cases hm : e.ownMessage with
        | some m =>
            have hmb : m ≠ b := fun hh => hmsg (by rw [hm, hh])
            simpa [hm] using hmb
        | none =>
            exact fun hh => hbu hh.symm

/-- Witness for C5: a 401 error yields the curated message; an unmatched
error with a raw upstream body is not forwarded as that body. -/
theorem provider_errors_curated_witness :
    getOpenRouterFriendlyError
        (.eobj true (some 401) (some "upstream raw body") "boom") =
      authFailedMsg ∧
    getOpenRouterFriendlyError
        (.eobj true none (some "upstream raw body") "Connection reset") ≠
      "upstream raw body" :=
  ⟨provider_errors_curated.1 _ rfl,
   provider_errors_curated.2 _ "upstream raw body" rfl (by decide) (by decide)
     (by decide) (by decide)⟩

lemma validMessagePart_encPart (p : GoodPart)
    (h : ∀ t, p.text = some t → t.length ≤ 10000) :
    validMessagePart (encPart p) = true := by
  cases p with
  | mk ptype text =>
    cases text with
    | none => rfl
    | some t =>
      have ht := h t rfl
      simp [validMessagePart, encPart, getField, ht]

lemma validMessage_encMsg (m : GoodMsg)
    (hrole : m.role = "user" ∨ m.role = "assistant" ∨ m.role = "system")
    (hparts : ∀ p ∈ m.parts, ∀ t, p.text = some t → t.length ≤ 10000) :
    validMessage (encMsg m) = true := by
  cases m with
  | mk role parts =>
    have hstep : validMessage (encMsg ⟨role, parts⟩) =
        ((validRole (.jstr role) && (parts.map encPart).all validMessagePart)
          && true) := rfl
    rw [hstep]
    have hr : validRole (.jstr role) = true := by
      rcases hrole with h | h | h <;> subst h <;> rfl
    have hall : (parts.map encPart).all validMessagePart = true := by
      rw [List.all_eq_true]
      intro x hx
      obtain ⟨p, hp, rfl⟩ := List.mem_map.mp hx
      exact validMessagePart_encPart p (hparts p hp)
    rw [hr, hall]
    rfl

lemma chatRequestValid_encReq (ms : List GoodMsg)
    (hlen : ms.length ≤ 100)
    (hroles : ∀ m ∈ ms, m.role = "user" ∨ m.role = "assistant" ∨
      m.role = "system")
    (htexts : ∀ m ∈ ms, ∀ p ∈ m.parts, ∀ t, p.text = some t →
      t.length ≤ 10000) :
    chatRequestValid (encReq ms) = true := by
  have hstep : chatRequestValid (encReq ms) =
      (decide ((ms.map encMsg).length ≤ 100) && (ms.map encMsg).all
        validMessage) := rfl
  rw [hstep, List.length_map]
  have h1 : decide (ms.length ≤ 100) = true := decide_eq_true hlen
  have h2 : (ms.map encMsg).all validMessage = true := by
    rw [List.all_eq_true]
    intro x hx
    obtain ⟨m, hm, rfl⟩ := List.mem_map.mp hx
    exact validMessage_encMsg m (hroles m hm) (htexts m hm)
  rw [h1, h2]
  rfl

lemma validMessagePart_long_text (pfs : List (String × JVal)) (t : String)
    (htext : getField pfs "text" = some (.jstr t))
    (hlong : 10000 < t.length) :
    validMessagePart (.jobj pfs) = false := by
  have : decide (t.length ≤ 10000) = false :=
    decide_eq_false (by omega)
  simp [validMessagePart, htext, this]

lemma validMessage_long_part (mfs : List (String × JVal))
    (ps : List JVal) (p : JVal)
    (hps : getField mfs "parts" = some (.jarr ps))
    (hmem : p ∈ ps) (hbad : validMessagePart p = false) :
    validMessage (.jobj mfs) = false := by
  have hall : ps.all validMessagePart = false := by
    cases h : ps.all validMessagePart
    · rfl
    · rw [List.all_eq_true] at h
      rw [h p hmem] at hbad
      exact absurd hbad (by simp)
  simp [validMessage, hps, hall]

/-- C3: a chat request whose message count exceeds 100, or in which some
message carries a text part longer than 10000 characters, fails validation
with a 400 response and the provider is never called; a shape-correct
request within both bounds passes validation, and with a well-formed key the
provider is reached. -/
theorem chat_request_validation_bounds :
    (∀ (s : Session) (env : Env) (fs : List (String × JVal)) (ms : List JVal),
        getField fs "messages" = some (.jarr ms) →
        100 < ms.length →
        POST (some s) (some (.jobj fs)) env =
          ⟨.invalidRequest, true, true, false⟩) ∧
    (∀ (s : Session) (env : Env) (fs : List (String × JVal)) (ms : List JVal)
        (mfs : List (String × JVal)) (ps : List JVal)
        (pfs : List (String × JVal)) (t : String),
        getField fs "messages" = some (.jarr ms) →
        (JVal.jobj mfs) ∈ ms →
        getField mfs "parts" = some (.jarr ps) →
        (JVal.jobj pfs) ∈ ps →
        getField pfs "text" = some (.jstr t) →
        10000 < t.length →
        POST (some s) (some (.jobj fs)) env =
          ⟨.invalidRequest, true, true, false⟩) ∧
    (∀ (s : Session) (ms : List GoodMsg),
        ms.length ≤ 100 →
        (∀ m ∈ ms, m.role = "user" ∨ m.role = "assistant" ∨
          m.role = "system") →
        (∀ m ∈ ms, ∀ p ∈ m.parts, ∀ t, p.text = some t →
          t.length ≤ 10000) →
        chatRequestValid (encReq ms) = true ∧
        POST (some s) (some (encReq ms)) ⟨some "sk-or-v1-testkey"⟩ =
          ⟨.streamed, true, true, true⟩) := by
  refine ⟨?_, ?_, ?_⟩
  · intro s env fs ms hms hlen
    have hd : decide (ms.length ≤ 100) = false := decide_eq_false (by omega)
    have hval : chatRequestValid (.jobj fs) = false := by
      simp [chatRequestValid, hms, hd]
    simp [POST, hval]
  · intro s env fs ms mfs ps pfs t hms hmem hps hpmem htext hlen
    have hbadpart := validMessagePart_long_text pfs t htext hlen
    have hbadmsg := validMessage_long_part mfs ps _ hps hpmem hbadpart
    have hall : ms.all validMessage = false := by
      cases h : ms.all validMessage
      · rfl
      · rw [List.all_eq_true] at h
        have hcontra := h _ hmem
        rw [hbadmsg] at hcontra
        exact absurd hcontra (by decide)
    have hval : chatRequestValid (.jobj fs) = false := by
      simp [chatRequestValid, hms, hall]
    simp [POST, hval]
  · intro s ms hlen hroles htexts
    have hv := chatRequestValid_encReq ms hlen hroles htexts
    refine ⟨hv, ?_⟩
    have hred : POST (some s) (some (encReq ms)) ⟨some "sk-or-v1-testkey"⟩ =
        (if !chatRequestValid (encReq ms) then
          (⟨.invalidRequest, true, true, false⟩ : PostTrace)
         else ⟨.streamed, true, true, true⟩) := rfl
    rw [hred, hv]
    rfl

/-- A 10001-character text, used to exercise the length bound. -/
def longText : String := String.mk (List.replicate 10001 'a')

lemma longText_length : longText.length = 10001 := by
  show (List.replicate 10001 'a').length = 10001
  rw [List.length_replicate]

/-- Witness for C3: a 101-message request is rejected, a request with a
10001-character text part is rejected, and a small well-formed request
passes validation and reaches the provider. -/
theorem chat_request_validation_bounds_witness :
    POST (some ⟨"u"⟩)
        (some (.jobj [("messages",
          .jarr (List.replicate 101 (.jobj [("role", .jstr "user")])))]))
        ⟨some "sk-or-v1-testkey"⟩ =
      ⟨.invalidRequest, true, true, false⟩ ∧
    POST (some ⟨"u"⟩)
        (some (.jobj [("messages", .jarr [.jobj
          [("role", .jstr "user"),
           ("parts", .jarr [.jobj [("type", .jstr "text"),
                                   ("text", .jstr longText)]])]])]))
        ⟨some "sk-or-v1-testkey"⟩ =
      ⟨.invalidRequest, true, true, false⟩ ∧
    (chatRequestValid (encReq [⟨"user", [⟨"text", some "hi"⟩]⟩]) = true ∧
     POST (some ⟨"u"⟩) (some (encReq [⟨"user", [⟨"text", some "hi"⟩]⟩]))
        ⟨some "sk-or-v1-testkey"⟩ =
      ⟨.streamed, true, true, true⟩) :=
  ⟨chat_request_validation_bounds.1 ⟨"u"⟩ ⟨some "sk-or-v1-testkey"⟩ _ _ rfl
     (by rw [List.length_replicate]; norm_num),
   chat_request_validation_bounds.2.1 ⟨"u"⟩ ⟨some "sk-or-v1-testkey"⟩ _ _ _ _ _
     longText rfl (List.Mem.head _) rfl (List.Mem.head _) rfl
     (by rw [longText_length]; norm_num),
   chat_request_validation_bounds.2.2 ⟨"u"⟩ _ (by decide)
     (by
       intro m hm
       rw [List.mem_singleton] at hm
       subst hm
       exact Or.inl rfl)
     (by
       intro m hm p hp t ht
       rw [List.mem_singleton] at hm
       subst hm
       rw [List.mem_singleton] at hp
       subst hp
       simp only [Option.some.injEq] at ht
       subst ht
       decide)⟩

/-- C8: the generate-offer endpoint returns a value only when the entire
provider output conforms to the declared offer schema; on a schema
mismatch it fails with the validation error, and a missing or wrong-typed
field is a schema mismatch — the caller never receives a partial object. -/
theorem structured_offer_all_or_nothing :
    (∀ (bn : Option String) (raw : JVal) (o : OfferData),
        generateOfferPOST bn (.ok raw) = .ok o →
        parseOffer raw = some o ∧ offerSchemaValid raw = true) ∧
    (∀ (n : String) (raw : JVal),
        n ≠ "" → offerSchemaValid raw = false →
        generateOfferPOST (some n) (.ok raw) = .schemaFailure) ∧
    (∀ fs : List (String × JVal),
        getField fs "title" = none → offerSchemaValid (.jobj fs) = false) ∧
    (∀ (fs : List (String × JVal)) (s : String),
        getField fs "discount" = some (.jstr s) →
        offerSchemaValid (.jobj fs) = false) := by
  refine ⟨?_, ?_, ?_, ?_⟩
  · intro bn raw o h
    cases bn with
    | none => simp [generateOfferPOST] at h
    | some n =>
      by_cases hn : n = ""
      · subst hn
        simp [generateOfferPOST] at h
      · cases hp : parseOffer raw with
        | none =>
            rw [generateOfferPOST, if_neg hn, hp] at h
            simp at h
        | some offer =>
            rw [generateOfferPOST, if_neg hn, hp] at h
            simp at h
            exact ⟨by simp [hp, h], by simp [offerSchemaValid, hp]⟩
  · intro n raw hn hval
    have hp : parseOffer raw = none := by
      cases hp : parseOffer raw with
      | none => rfl
      | some offer => simp [offerSchemaValid, hp] at hval
    rw [generateOfferPOST, if_neg hn, hp]
  · intro fs h
    simp [offerSchemaValid, parseOffer, h]
  · intro fs s h
    simp only [offerSchemaValid, parseOffer, h]
    split <;> simp_all
    split <;> rfl

/-- Witness for C8: a conforming output is returned in full, an empty
object is rejected with the validation failure, and a string-typed
`discount` field fails the schema. -/
theorem structured_offer_witness :
    (parseOffer offerRawGood = some offerGood ∧
     offerSchemaValid offerRawGood = true) ∧
    generateOfferPOST (some "Coastal Bites") (.ok (.jobj [])) =
      .schemaFailure ∧
    offerSchemaValid (.jobj [("discount", .jstr "20")]) = false :=
  ⟨structured_offer_all_or_nothing.1 (some "Coastal Bites") offerRawGood
     offerGood rfl,
   structured_offer_all_or_nothing.2.1 "Coastal Bites" (.jobj [])
     (by decide) (structured_offer_all_or_nothing.2.2.1 [] rfl),
   structured_offer_all_or_nothing.2.2.2 [("discount", .jstr "20")] "20" rfl⟩

lemma toolStartCount_append (a b : List StreamEvent) :
    toolStartCount (a ++ b) = toolStartCount a + toolStartCount b := by
  simp [toolStartCount, List.filter_append]

lemma runLoop_event_structure (reg : List ToolDecl) (provider : Provider) :
    ∀ (steps : Nat) (history : List Msg) (events : List StreamEvent)
      (acc : String),
      ∃ (pre : List StreamEvent) (e : StreamEvent),
        runLoop reg provider history steps events acc = events ++ pre ++ [e] ∧
        e.isTerminal = true ∧ pre.filter StreamEvent.isTerminal = [] := by
  intro steps
  induction steps with
  | zero =>
      intro history events acc
      exact ⟨[], .turnError .stepLimitExceeded, by simp [runLoop], rfl, rfl⟩
  | succ n ih =>
      intro history events acc
      cases hp : provider history with
      | finalText t =>
          refine ⟨[.textDelta t], .turnComplete (acc ++ t), ?_, rfl, rfl⟩
          simp [runLoop, hp]
      | toolCall name input pretext =>
          cases hr : registryExecute reg name input with
          | ok payload =>
              obtain ⟨pre, e, heq, hterm, hfil⟩ :=
                ih (history ++ [toolResultMsg name true payload])
                   (events ++ [.textDelta pretext, .toolCallStarted name,
                               .toolCallResult name true payload])
                   (acc ++ pretext)
              refine ⟨[.textDelta pretext, .toolCallStarted name,
                       .toolCallResult name true payload] ++ pre, e, ?_,
                      hterm, ?_⟩
              · simp only [runLoop, hp, hr]
                rw [heq]
                simp [List.append_assoc]
              · simp [List.filter_append, hfil, StreamEvent.isTerminal,
                      List.filter]
          | invalidInput =>
              obtain ⟨pre, e, heq, hterm, hfil⟩ :=
                ih (history ++ [toolResultMsg name false invalidInputPayload])
                   (events ++ [.textDelta pretext, .toolCallStarted name,
                               .toolCallResult name false invalidInputPayload])
                   (acc ++ pretext)
              refine ⟨[.textDelta pretext, .toolCallStarted name,
                       .toolCallResult name false invalidInputPayload] ++ pre,
                      e, ?_, hterm, ?_⟩
              · simp only [runLoop, hp, hr]
                rw [heq]
                simp [List.append_assoc]
              · simp [List.filter_append, hfil, StreamEvent.isTerminal,
                      List.filter]
          | unknownTool =>
              obtain ⟨pre, e, heq, hterm, hfil⟩ :=
                ih (history ++ [toolResultMsg name false unknownToolPayload])
                   (events ++ [.textDelta pretext, .toolCallStarted name,
                               .toolCallResult name false unknownToolPayload])
                   (acc ++ pretext)
              refine ⟨[.textDelta pretext, .toolCallStarted name,
                       .toolCallResult name false unknownToolPayload] ++ pre,
                      e, ?_, hterm, ?_⟩
              · simp only [runLoop, hp, hr]
                rw [heq]
                simp [List.append_assoc]
              · simp [List.filter_append, hfil, StreamEvent.isTerminal,
                      List.filter]

lemma runLoop_toolStart_bound (reg : List ToolDecl) (provider : Provider) :
    ∀ (steps : Nat) (history : List Msg) (events : List StreamEvent)
      (acc : String),
      toolStartCount (runLoop reg provider history steps events acc) ≤
        toolStartCount events + steps := by
  intro steps
  induction steps with
  | zero =>
      intro history events acc
      simp only [runLoop]
      rw [toolStartCount_append]
      have h0 : toolStartCount [StreamEvent.turnError .stepLimitExceeded] = 0 :=
        rfl
      omega
  | succ n ih =>
      intro history events acc
      cases hp : provider history with
      | finalText t =>
          simp only [runLoop, hp]
          rw [toolStartCount_append]
          have h0 : toolStartCount [StreamEvent.textDelta t,
              .turnComplete (acc ++ t)] = 0 := rfl
          omega
      | toolCall name input pretext =>
          cases hr : registryExecute reg name input with
          | ok payload =>
              simp only [runLoop, hp, hr]
              refine le_trans (ih _ _ _) ?_
              rw [toolStartCount_append]
              have h3 : toolStartCount [StreamEvent.textDelta pretext,
                  .toolCallStarted name, .toolCallResult name true payload] =
                  1 := rfl
              omega
          | invalidInput =>
              simp only [runLoop, hp, hr]
              refine le_trans (ih _ _ _) ?_
              rw [toolStartCount_append]
              have h3 : toolStartCount [StreamEvent.textDelta pretext,
                  .toolCallStarted name,
                  .toolCallResult name false invalidInputPayload] = 1 := rfl
              omega
          | unknownTool =>
              simp only [runLoop, hp, hr]
              refine le_trans (ih _ _ _) ?_
              rw [toolStartCount_append]
              have h3 : toolStartCount [StreamEvent.textDelta pretext,
                  .toolCallStarted name,
                  .toolCallResult name false unknownToolPayload] = 1 := rfl
              omega

lemma runLoop_always_tool_last (reg : List ToolDecl) (provider : Provider)
    (halways : ∀ h, ∃ name input pretext,
      provider h = .toolCall name input pretext) :
    ∀ (steps : Nat) (history : List Msg) (events : List StreamEvent)
      (acc : String),
      (runLoop reg provider history steps events acc).getLast? =
        some (.turnError .stepLimitExceeded) := by
  intro steps
  induction steps with
  | zero =>
      intro history events acc
      simp only [runLoop]
      exact List.getLast?_concat _
  | succ n ih =>
      intro history events acc
      obtain ⟨name, input, pretext, hp⟩ := halways history
      cases hr : registryExecute reg name input <;>
        simp only [runLoop, hp, hr] <;> apply ih

/-- C2: every turn emits exactly one terminal event (turn-complete or
turn-error) and that terminal event is the last event of the stream. -/
theorem stream_single_terminal_event :
    ∀ (reg : List ToolDecl) (provider : Provider) (history : List Msg)
      (maxSteps : Nat),
      terminalCount (runTurn reg provider history maxSteps) = 1 ∧
      ∃ (pre : List StreamEvent) (e : StreamEvent),
        runTurn reg provider history maxSteps = pre ++ [e] ∧
        e.isTerminal = true ∧ pre.filter StreamEvent.isTerminal = [] := by
  intro reg provider history maxSteps
  obtain ⟨pre, e, heq, hterm, hfil⟩ :=
    runLoop_event_structure reg provider maxSteps history [] ""
  have heq' : runTurn reg provider history maxSteps = pre ++ [e] := by
    rw [runTurn, heq]
    simp
  refine ⟨?_, pre, e, heq', hterm, hfil⟩
  rw [heq', terminalCount, List.filter_append, hfil]
  simp [List.filter, hterm]

/-- C1: the tool-call loop performs at most `maxSteps` tool invocations,
and a provider that requests a tool call on every response drives the turn
to a final StepLimitExceeded error instead of looping forever. -/
theorem tool_loop_bounded_by_step_limit :
    (∀ (reg : List ToolDecl) (provider : Provider) (history : List Msg)
        (maxSteps : Nat),
        toolStartCount (runTurn reg provider history maxSteps) ≤ maxSteps) ∧
    (∀ (reg : List ToolDecl) (provider : Provider) (history : List Msg),
        (∀ h, ∃ name input pretext,
          provider h = .toolCall name input pretext) →
        (runTurn reg provider history defaultMaxSteps).getLast? =
          some (.turnError .stepLimitExceeded)) := by
  constructor
  · intro reg provider history maxSteps
    have hb := runLoop_toolStart_bound reg provider maxSteps history [] ""
    have h0 : toolStartCount ([] : List StreamEvent) = 0 := rfl
    rw [runTurn]
    omega
  · intro reg provider history halways
    exact runLoop_always_tool_last reg provider halways defaultMaxSteps
      history [] ""

/-- Witness for C1: the twin-chat registry with a provider that always
requests getOffers terminates with StepLimitExceeded within the default
five steps. -/
theorem tool_loop_bounded_witness :
    (runTurn (twinTools [] []) (fun _ => .toolCall "getOffers" (.jobj []) "")
        [] defaultMaxSteps).getLast? =
      some (.turnError .stepLimitExceeded) :=
  tool_loop_bounded_by_step_limit.2 (twinTools [] [])
    (fun _ => .toolCall "getOffers" (.jobj []) "") []
    (fun _ => ⟨"getOffers", .jobj [], "", rfl⟩)

/-- C7: a tool call whose input fails the known tool's input schema does
not terminate the turn: the loop emits a tool-call-result carrying the
error payload, appends the error into the history, and continues; if the
provider then answers, the turn still completes. -/
theorem invalid_tool_input_continues :
    ∀ (reg : List ToolDecl) (provider : Provider) (history : List Msg)
      (n : Nat) (events : List StreamEvent) (acc : String)
      (name : String) (input : JVal) (pretext : String) (t : ToolDecl),
      provider history = .toolCall name input pretext →
      findTool reg name = some t →
      t.validInput input = false →
      runLoop reg provider history (n + 1) events acc =
        runLoop reg provider
          (history ++ [toolResultMsg name false invalidInputPayload]) n
          (events ++ [.textDelta pretext, .toolCallStarted name,
                      .toolCallResult name false invalidInputPayload])
          (acc ++ pretext) ∧
      (∀ ftext,
        provider (history ++ [toolResultMsg name false invalidInputPayload]) =
          .finalText ftext →
        runLoop reg provider history (n + 1 + 1) events acc =
          events ++ [.textDelta pretext, .toolCallStarted name,
                     .toolCallResult name false invalidInputPayload,
                     .textDelta ftext,
                     .turnComplete ((acc ++ pretext) ++ ftext)]) := by
  intro reg provider history n events acc name input pretext t hp hfind hvalid
  have hexec : registryExecute reg name input = .invalidInput := by
    simp [registryExecute, hfind, hvalid]
  constructor
  · simp only [runLoop, hp, hexec]
  · intro ftext hp2
    simp only [runLoop, hp, hexec, hp2]
    simp [List.append_assoc]

/-- Witness for C7: the bookAppointment tool invoked with a numeric date
field is rejected by its input schema, the error is streamed, and the turn
completes on the next provider response. -/
theorem invalid_tool_input_continues_witness :
    runTurn (twinTools [] []) demoProvider
        [⟨"user", [.text "book tomorrow"]⟩] defaultMaxSteps =
      [.textDelta "", .toolCallStarted "bookAppointment",
       .toolCallResult "bookAppointment" false invalidInputPayload,
       .textDelta "Sorry, I need a valid date.",
       .turnComplete "Sorry, I need a valid date."] := by
  have h := (invalid_tool_input_continues (twinTools [] []) demoProvider
    [⟨"user", [.text "book tomorrow"]⟩] 3 [] "" "bookAppointment"
    (.jobj [("date", .jnum 5)]) "" bookTool rfl rfl rfl).2
    "Sorry, I need a valid date." rfl
  simpa using h

end LocalLoop
